import Mathlib

/-!
Shallow embedding of the artimate runtime (src/src/app.rs, the module exported by
src/src/lib.rs) — the frame-lifecycle state machine, input-handler registry, and
asynchronous frame-save pipeline.

Conventions of the embedding:
* Pixel buffers are `List Nat` (one entry per byte).
* Rust `fn` pointers stored in `App` (`draw`, `update`, the registered handlers)
  would make the `App` structure recursive in Lean, so `draw` and `update` are
  passed as explicit parameters to the event functions, and registered callbacks
  are modelled as model transformers `M → M` (the only state a callback can
  observe and mutate that matters to the claims).  `Mode` is `SketchMode` exactly
  when `update = none`, mirroring `App::sketch` storing `update: None` and
  `App::app` storing `update: Some(f)`.
* `std::sync::mpsc::Sender` presence is modelled as `Option Unit`; the messages
  that would travel on the channel are collected in the event output.
* External effects (directory creation, the render call, the wall clock, the
  Downloads directory) are an `Env` record of outcomes; a Rust `panic!`
  (`unwrap`, `copy_from_slice` length mismatch) sets the `panicked` flag and
  aborts the event, mirroring an unwound process.
-/

/-- Configuration for the application window and rendering behavior
(struct `Config` in app.rs). -/
structure Config where
  width : Nat
  height : Nat
  no_loop : Bool
  frames : Option Nat
  cursor_visible : Bool
  frames_to_save : Nat
  window_title : String
deriving DecidableEq

/-- `Config::new` (the window title defaults to "Artimate"). -/
def Config.new (width height : Nat) (no_loop cursor_visible : Bool)
    (frames_to_save : Nat) : Config :=
  ⟨width, height, no_loop, none, cursor_visible, frames_to_save, "Artimate"⟩

/-- `Config::with_dims`. -/
def Config.with_dims (width height : Nat) : Config :=
  Config.new width height false true 0

/-- `Config::set_frames_to_save`. -/
def Config.set_frames_to_save (c : Config) (n : Nat) : Config :=
  { c with frames_to_save := n }

/-- `Config::set_cursor_visibility`. -/
def Config.set_cursor_visibility (c : Config) (b : Bool) : Config :=
  { c with cursor_visible := b }

/-- `Config::no_loop` (the builder method; renamed `set_no_loop` because the
field of the same name already exists). -/
def Config.set_no_loop (c : Config) : Config :=
  { c with no_loop := true }

/-- `Config::set_frames`. -/
def Config.set_frames (c : Config) (n : Nat) : Config :=
  { c with frames := some n }

/-- `Config::set_title`. -/
def Config.set_title (c : Config) (t : String) : Config :=
  { c with window_title := t }

/-- Logical key identity (winit `Key`). -/
inductive Key where
  | character (text : String)
  | named (name : String)
deriving DecidableEq

/-- Mouse button identity (winit `MouseButton`). -/
inductive MouseButton where
  | left
  | right
  | middle
  | other (code : Nat)
deriving DecidableEq

/-- One message on the frame-save channel: the tuple
`(Vec<u8>, String, u32, u32)` sent to the persistence worker. -/
structure SaveRequest where
  pixels : List Nat
  filename : String
  width : Nat
  height : Nat
deriving DecidableEq

/-- Outcomes of the external collaborators during one event: the wall clock,
`dirs::download_dir()`, `std::fs::create_dir_all`, `Sender::send`,
`pixels.render()`, and the direct (cmd+s) `save_frame` call. -/
structure Env where
  now : Nat
  timestamp : Nat
  downloads_dir : Option String
  create_dir_ok : Bool
  send_ok : Bool
  render_ok : Bool
  direct_save_ok : Bool
deriving DecidableEq

/-- Observable effects of handling one window event. -/
structure EventOut where
  exit : Bool
  redraw : Bool
  sends : List SaveRequest
  direct_saves : List SaveRequest
  logs : List String
  press_invoked : List Key
  release_invoked : List Key
  held_invoked : List Key
  mouse_invoked : List MouseButton
  panicked : Bool

/-- The empty effect record. -/
def EventOut.empty : EventOut :=
  ⟨false, false, [], [], [], [], [], [], [], false⟩

/-- Sequencing of effect records. -/
def mergeOut (a b : EventOut) : EventOut :=
  ⟨a.exit || b.exit, a.redraw || b.redraw, a.sends ++ b.sends,
   a.direct_saves ++ b.direct_saves, a.logs ++ b.logs,
   a.press_invoked ++ b.press_invoked, a.release_invoked ++ b.release_invoked,
   a.held_invoked ++ b.held_invoked, a.mouse_invoked ++ b.mouse_invoked,
   a.panicked || b.panicked⟩

/-- `HashMap::insert`: last write wins. -/
def mapInsert {K V : Type} [DecidableEq K] (m : List (K × V)) (k : K) (v : V) :
    List (K × V) :=
  (k, v) :: m.filter (fun p => !(p.1 == k))

/-- `HashMap::get`. -/
def mapLookup {K V : Type} [DecidableEq K] (m : List (K × V)) (k : K) :
    Option V :=
  (m.find? (fun p => p.1 == k)).map (fun p => p.2)

/-- The mutable state of `App<Mode, M>` (app.rs), function fields excluded
(see the header comment). -/
structure AppState (M : Type) where
  model : M
  config : Config
  time : Nat
  frame_count : Nat
  window : Bool
  pixels : Option (List Nat)
  mouse_position : Int × Int
  frame_sender : Option Unit
  key_handlers : List (Key × (M → M))
  mouse_handlers : List (MouseButton × (M → M))
  key_press_handlers : List (Key × (M → M))
  key_release_handlers : List (Key × (M → M))
  keys_down : List Key
  modifiers_super : Bool

/-- `setup_frame_sender`: spawns the worker and returns the send handle
(presence only; the worker itself is `frame_worker` below). -/
def setup_frame_sender : Option Unit := some ()

/-- `App::<SketchMode>::sketch` — the draw function is supplied to the event
functions, `update` is `None`. -/
def App.sketch (config : Config) : AppState Unit :=
  let maybe_tx := if config.frames_to_save > 0 then setup_frame_sender else none
  ⟨(), config, 0, 0, false, none, (0, 0), maybe_tx, [], [], [], [], [], false⟩

/-- `App::<AppMode, M>::app` — `update` is `Some(f)`, supplied to the event
functions. -/
def App.app {M : Type} (model : M) (config : Config) : AppState M :=
  let maybe_tx := if config.frames_to_save > 0 then setup_frame_sender else none
  ⟨model, config, 0, 0, false, none, (0, 0), maybe_tx, [], [], [], [], [], false⟩

/-- `App::set_frames_to_save`. -/
def AppState.set_frames_to_save {M : Type} (s : AppState M) (n : Nat) :
    AppState M :=
  { s with config := s.config.set_frames_to_save n }

/-- `App::set_cursor_visibility`. -/
def AppState.set_cursor_visibility {M : Type} (s : AppState M) (b : Bool) :
    AppState M :=
  { s with config := s.config.set_cursor_visibility b }

/-- `App::no_loop`. -/
def AppState.set_no_loop {M : Type} (s : AppState M) : AppState M :=
  { s with config := s.config.set_no_loop }

/-- `App::set_frames`. -/
def AppState.set_frames {M : Type} (s : AppState M) (n : Nat) : AppState M :=
  { s with config := s.config.set_frames n }

/-- `App::set_title`. -/
def AppState.set_title {M : Type} (s : AppState M) (t : String) : AppState M :=
  { s with config := s.config.set_title t }

/-- `App::on_key_held` (registers into `key_handlers`). -/
def AppState.on_key_held {M : Type} (s : AppState M) (k : Key) (h : M → M) :
    AppState M :=
  { s with key_handlers := mapInsert s.key_handlers k h }

/-- `App::on_key_press` (registers into `key_press_handlers`). -/
def AppState.on_key_press {M : Type} (s : AppState M) (k : Key) (h : M → M) :
    AppState M :=
  { s with key_press_handlers := mapInsert s.key_press_handlers k h }

/-- `App::on_key_release` (registers into `key_release_handlers`). -/
def AppState.on_key_release {M : Type} (s : AppState M) (k : Key) (h : M → M) :
    AppState M :=
  { s with key_release_handlers := mapInsert s.key_release_handlers k h }

/-- `App::on_mouse_press` (registers into `mouse_handlers`). -/
def AppState.on_mouse_press {M : Type} (s : AppState M) (b : MouseButton)
    (h : M → M) : AppState M :=
  { s with mouse_handlers := mapInsert s.mouse_handlers b h }

/-- `ApplicationHandler::resumed`: creates the window if absent. -/
def resumed {M : Type} (s : AppState M) : AppState M :=
  { s with window := true }

/-- Window events delivered by the host (the `WindowEvent` arms the runtime
handles). -/
inductive Event where
  | closeRequested
  | modifiersChanged (superPressed : Bool)
  | keyboardInput (pressed : Bool) (key : Key)
  | mouseInput (pressed : Bool) (button : MouseButton)
  | cursorMoved (x y : Int)
  | cursorEntered
  | cursorLeft
  | redrawRequested
deriving DecidableEq

/-- Zero-pads a frame index to width 4, as the Rust format `frame_..._0000`. -/
def pad4 (n : Nat) : String :=
  let s := toString n
  if s.length < 4 then String.mk (List.replicate (4 - s.length) '0') ++ s else s

/-- Filename of a worker-saved frame:
`<downloads>/frames/frame_<timestamp>_<frame_count padded to 4>.png`. -/
def frameFilename (dir : String) (timestamp fc : Nat) : String :=
  dir ++ "/frames/frame_" ++ toString timestamp ++ "_" ++ pad4 fc ++ ".png"

/-- Filename of a cmd+s direct save:
`<downloads>/artmate/artmate_<timestamp>.png`. -/
def directFilename (dir : String) (timestamp : Nat) : String :=
  dir ++ "/artmate/artmate_" ++ toString timestamp ++ ".png"

/-- `App::handle_keyboard_input`: on Pressed, insert into `keys_down` and fire
the press handler, then (still Pressed) fire the held handler; on Released,
remove from `keys_down` and fire the release handler.  Each fired handler is
followed by `request_redraw`. -/
def handle_keyboard_input {M : Type} (s : AppState M) (pressed : Bool)
    (key : Key) : AppState M × EventOut :=
  let base :=
    if pressed then
      let s1 := { s with keys_down := key :: s.keys_down.filter (fun k => !(k == key)) }
      match mapLookup s1.key_press_handlers key with
      | some h =>
          ({ s1 with model := h s1.model },
           { EventOut.empty with redraw := true, press_invoked := [key] })
      | none => (s1, EventOut.empty)
    else
      let s1 := { s with keys_down := s.keys_down.filter (fun k => !(k == key)) }
      match mapLookup s1.key_release_handlers key with
      | some h =>
          ({ s1 with model := h s1.model },
           { EventOut.empty with redraw := true, release_invoked := [key] })
      | none => (s1, EventOut.empty)
  if pressed then
    match mapLookup base.1.key_handlers key with
    | some h =>
        ({ base.1 with model := h base.1.model },
         mergeOut base.2 { EventOut.empty with redraw := true, held_invoked := [key] })
    | none => base
  else base

/-- `App::handle_mouse_input`. -/
def handle_mouse_input {M : Type} (s : AppState M) (b : MouseButton) :
    AppState M × EventOut :=
  match mapLookup s.mouse_handlers b with
  | some h =>
      ({ s with model := h s.model },
       { EventOut.empty with redraw := true, mouse_invoked := [b] })
  | none => (s, EventOut.empty)

/-- The cmd+s direct-save block of the `KeyboardInput` arm (app.rs): on "s"
with a Super modifier held, draw synchronously, copy into the surface if it
exists, and call `save_frame` directly (its `Result` is `unwrap`ed, so a
failing direct save panics). -/
def cmd_s_save {M : Type} (draw : AppState M → M → List Nat) (env : Env)
    (s : AppState M) : AppState M × EventOut :=
  let draw_result := draw s s.model
  match s.pixels with
  | some frame =>
      if draw_result.length ≠ frame.length then
        (s, { EventOut.empty with panicked := true })
      else
        let s1 := { s with pixels := some draw_result }
        match env.downloads_dir with
        | some d =>
            if env.create_dir_ok then
              if env.direct_save_ok then
                (s1, { EventOut.empty with direct_saves :=
                        [⟨draw_result, directFilename d env.timestamp,
                          s1.config.width, s1.config.height⟩] })
              else
                (s1, { EventOut.empty with panicked := true })
            else
              (s1, { EventOut.empty with logs :=
                      ["Failed to create frames directory"] })
        | none => (s1, EventOut.empty)
  | none => (s, EventOut.empty)

/-- The frame-save block of the `RedrawRequested` arm (app.rs): while
`frame_count < frames_to_save` and a sender exists, build the timestamped
filename and send the frame over the channel (failures of directory creation
or of the send are logged, never fatal). -/
def frame_save_out {M : Type} (env : Env) (draw_result : List Nat)
    (s2 : AppState M) : EventOut :=
  if s2.frame_count < s2.config.frames_to_save then
    match s2.frame_sender with
    | some _ =>
        match env.downloads_dir with
        | some d =>
            if env.create_dir_ok then
              if env.send_ok then
                { EventOut.empty with sends :=
                    [⟨draw_result,
                      frameFilename d env.timestamp s2.frame_count,
                      s2.config.width, s2.config.height⟩] }
              else
                { EventOut.empty with logs :=
                    ["Failed to send frame data"] }
            else
              { EventOut.empty with logs :=
                  ["Failed to create frames directory"] }
        | none => EventOut.empty
    | none => EventOut.empty
  else EventOut.empty

/-- The `RedrawRequested` arm (app.rs): create the surface if absent
(`get_or_insert_with`), draw, copy into the surface (panicking on a length
mismatch), send the frame to the persistence worker while within the quota,
render (a failure exits the loop at once, skipping update and the increment),
update the model if in AppMode, decide on another redraw from the loop policy
using the pre-increment `frame_count`, and finally increment `frame_count`. -/
def redraw_cycle {M : Type} (draw : AppState M → M → List Nat)
    (update : Option (AppState M → M → M)) (env : Env)
    (s : AppState M) : AppState M × EventOut :=
  let frame :=
    match s.pixels with
    | some f => f
    | none => List.replicate (s.config.width * s.config.height * 4) 0
  let s1 := { s with pixels := some frame }
  let draw_result := draw s1 s1.model
  if draw_result.length ≠ frame.length then
    (s1, { EventOut.empty with panicked := true })
  else
    let s2 := { s1 with pixels := some draw_result }
    let saveOut := frame_save_out env draw_result s2
    if !env.render_ok then
      (s2, mergeOut saveOut { EventOut.empty with exit := true })
    else
      let s3 :=
        match update with
        | some f => { s2 with model := f s2 s2.model }
        | none => s2
      let again : Bool :=
        if !s3.config.no_loop then
          match s3.config.frames with
          | some k => decide (s3.frame_count < k)
          | none => true
        else false
      let s4 := { s3 with frame_count := s3.frame_count + 1 }
      (s4, mergeOut saveOut { EventOut.empty with redraw := again })

/-- `ApplicationHandler::window_event` for `App<Mode, M>` (app.rs): the event
dispatch.  Entry unwraps the window (`panic` if absent) and resamples
`time`. -/
def window_event {M : Type} (draw : AppState M → M → List Nat)
    (update : Option (AppState M → M → M)) (env : Env)
    (s0 : AppState M) (ev : Event) : AppState M × EventOut :=
  if !s0.window then
    (s0, { EventOut.empty with panicked := true })
  else
    let s := { s0 with time := env.now }
    match ev with
    | Event.closeRequested =>
        (s, { EventOut.empty with exit := true, logs := ["Close Requested"] })
    | Event.modifiersChanged superPressed =>
        ({ s with modifiers_super := superPressed }, EventOut.empty)
    | Event.keyboardInput pressed key =>
        let direct :=
          if pressed = true ∧ key = Key.character ("s") ∧ s.modifiers_super = true then
            cmd_s_save draw env s
          else (s, EventOut.empty)
        if direct.2.panicked then direct
        else
          let k := handle_keyboard_input direct.1 pressed key
          (k.1, mergeOut direct.2 k.2)
    | Event.mouseInput pressed button =>
        if pressed then handle_mouse_input s button else (s, EventOut.empty)
    | Event.cursorMoved x y =>
        ({ s with mouse_position := (x, y) }, EventOut.empty)
    | Event.cursorEntered => (s, EventOut.empty)
    | Event.cursorLeft => (s, EventOut.empty)
    | Event.redrawRequested => redraw_cycle draw update env s

/-- Accumulated effects of a run of the event loop. -/
structure RunOut where
  cycles : Nat
  sends : List SaveRequest
  direct_saves : List SaveRequest
  logs : List String
  press_invoked : List Key
  release_invoked : List Key
  held_invoked : List Key
  mouse_invoked : List MouseButton
  exited : Bool
  panicked : Bool

/-- The empty run. -/
def RunOut.empty : RunOut := ⟨0, [], [], [], [], [], [], [], false, false⟩

/-- Prepends one event's effects to a run. -/
def consRun (cyc : Nat) (e : EventOut) (r : RunOut) : RunOut :=
  ⟨cyc + r.cycles, e.sends ++ r.sends, e.direct_saves ++ r.direct_saves,
   e.logs ++ r.logs, e.press_invoked ++ r.press_invoked,
   e.release_invoked ++ r.release_invoked, e.held_invoked ++ r.held_invoked,
   e.mouse_invoked ++ r.mouse_invoked, e.exit || r.exited,
   e.panicked || r.panicked⟩

/-- A run consisting of a single final event. -/
def stopRun (cyc : Nat) (e : EventOut) : RunOut :=
  ⟨cyc, e.sends, e.direct_saves, e.logs, e.press_invoked, e.release_invoked,
   e.held_invoked, e.mouse_invoked, e.exit, e.panicked⟩

/-- How many redraw cycles one event accounts for. -/
def cycleWeight : Event → Nat
  | Event.redrawRequested => 1
  | _ => 0

/-- Host event delivery: processes a script of delivered window events in
order; `event_loop.exit()` or a panic stops further delivery. -/
def run_script {M : Type} (draw : AppState M → M → List Nat)
    (update : Option (AppState M → M → M)) (env : Env) :
    AppState M → List Event → AppState M × RunOut
  | s, [] => (s, RunOut.empty)
  | s, ev :: rest =>
      let r := window_event draw update env s ev
      if r.2.panicked || r.2.exit then (r.1, stopRun (cycleWeight ev) r.2)
      else
        let t := run_script draw update env r.1 rest
        (t.1, consRun (cycleWeight ev) r.2 t.2)

/-- The redraw-driven loop: the host delivers an initial `RedrawRequested`, and
delivers another one exactly when the previous cycle called `request_redraw`.
`fuel` bounds the number of cycles so the function is total; every claim about
this loop supplies enough fuel for it to never be exhausted. -/
def run_loop {M : Type} (draw : AppState M → M → List Nat)
    (update : Option (AppState M → M → M)) (env : Env) :
    Nat → AppState M → AppState M × RunOut
  | 0, s => (s, RunOut.empty)
  | fuel + 1, s =>
      let r := window_event draw update env s Event.redrawRequested
      if r.2.panicked || r.2.exit then (r.1, stopRun 1 r.2)
      else if r.2.redraw then
        let t := run_loop draw update env fuel r.1
        (t.1, consRun 1 r.2 t.2)
      else (r.1, stopRun 1 r.2)

/-- Result of `App::run`: `event_loop.run_app` is driven to completion, and the
summary statistics (average FPS, frame count, elapsed time) are printed right
after `run_app` returns — i.e. unless a panic unwound through it. -/
structure RunReturn where
  summary_printed : Bool
  frame_count : Nat
  exited : Bool

/-- `App::run` over a delivered-event script. -/
def app_run {M : Type} (draw : AppState M → M → List Nat)
    (update : Option (AppState M → M → M)) (env : Env)
    (s : AppState M) (script : List Event) : RunReturn :=
  let r := run_script draw update env s script
  ⟨!r.2.panicked, r.1.frame_count, r.2.exited⟩

/-- Outcome the worker logs for one request: `save_frame` in app.rs returns
`Result`; on `Err(err)` the worker prints `Failed to save frame: {err}` and
continues. -/
def save_frame_result (save : SaveRequest → Except String Unit)
    (r : SaveRequest) : Option String :=
  match save r with
  | Except.ok _ => none
  | Except.error e => some ("Failed to save frame: " ++ e)

/-- The persistence worker spawned by `setup_frame_sender`: blocking-receives
requests one at a time until the channel closes, attempting each save and
logging failures. -/
def frame_worker (save : SaveRequest → Except String Unit) :
    List SaveRequest → List (Option String)
  | [] => []
  | r :: rest => save_frame_result save r :: frame_worker save rest
/-!  Concrete fixtures shared by several claims. -/

/-- An environment in which every external collaborator succeeds. -/
def envOk : Env := ⟨0, 99, some ("/downloads"), true, true, true, true⟩

/-- An environment in which `pixels.render()` fails (a fatal presentation
error). -/
def envRenderFail : Env := ⟨0, 99, some ("/downloads"), true, true, false, true⟩

/-- A draw function returning an all-zero buffer of the correct length. -/
def drawBlack {M : Type} : AppState M → M → List Nat :=
  fun s _ => List.replicate (s.config.width * s.config.height * 4) 0

/-- A draw function encoding a `Nat` model in a 1×1 RGBA buffer. -/
def drawModel : AppState Nat → Nat → List Nat := fun _ m => [m, m, m, m]

/-- An update function incrementing a `Nat` model by 1, as in the C4
scenario. -/
def updInc : AppState Nat → Nat → Nat := fun _ m => m + 1

/-- A draw function returning an empty (wrong-length) buffer. -/
def drawEmpty : AppState Unit → Unit → List Nat := fun _ _ => []

/-- The key "a". -/
def keyA : Key := Key.character ("a")

/-- A sketch with a held-key handler registered for "a", used to refute C2. -/
def c2App : AppState Unit :=
  (resumed (App.sketch (Config.with_dims 1 1))).on_key_held keyA (fun m => m)

/-- A sketch with `no_loop` and a save quota of 2, used to refute C3. -/
def c3App : AppState Unit :=
  resumed (App.sketch (((Config.with_dims 1 1).set_no_loop).set_frames_to_save 2))

/-- A sketch with a save quota of 2, used as the C3 witness state. -/
def c3Quota : AppState Unit :=
  resumed (App.sketch ((Config.with_dims 1 1).set_frames_to_save 2))

/-- A save outcome function that fails exactly on the filename "bad". -/
def saveFlaky : SaveRequest → Except String Unit :=
  fun q => if q.filename = "bad" then Except.error ("disk full") else Except.ok ()

/-- A well-formed request the flaky save accepts. -/
def reqGood : SaveRequest := ⟨[0, 0, 0, 255], "good", 1, 1⟩

/-- The request the flaky save rejects. -/
def reqBad : SaveRequest := ⟨[0, 0, 0, 255], "bad", 1, 1⟩

/-- A second well-formed request, queued after the failing one. -/
def reqLater : SaveRequest := ⟨[0, 0, 0, 255], "later", 1, 1⟩

/-- A stateful 1×1 app with a `Nat` model, used as the C7 witness state. -/
def c7App : AppState Nat := resumed (App.app 0 (Config.with_dims 1 1))

/-- A sketch with the Super modifier held and a live 1×1 surface, used as the
C10 witness state. -/
def c10App : AppState Unit :=
  { resumed (App.sketch (Config.with_dims 1 1)) with modifiers_super := true, pixels := some [0, 0, 0, 0] }

/-!  Helper lemmas about the event functions. -/

/-- Re-registering under the same key replaces the stored callback. -/
theorem mapLookup_insert_self {K V : Type} [DecidableEq K] (m : List (K × V))
    (k : K) (v : V) : mapLookup (mapInsert m k v) k = some v := by
  simp [mapLookup, mapInsert, List.find?]

/-- Keyboard dispatch emits no saves, never exits or panics, and leaves the
renderer-owned fields untouched. -/
theorem handle_keyboard_input_out {M : Type} (s : AppState M) (pressed : Bool)
    (key : Key) :
    ((handle_keyboard_input s pressed key).2.sends = [])
    ∧ ((handle_keyboard_input s pressed key).2.direct_saves = [])
    ∧ ((handle_keyboard_input s pressed key).2.panicked = false)
    ∧ ((handle_keyboard_input s pressed key).2.exit = false)
    ∧ ((handle_keyboard_input s pressed key).1.frame_sender = s.frame_sender)
    ∧ ((handle_keyboard_input s pressed key).1.config = s.config)
    ∧ ((handle_keyboard_input s pressed key).1.window = s.window)
    ∧ ((handle_keyboard_input s pressed key).1.pixels = s.pixels)
    ∧ ((handle_keyboard_input s pressed key).1.frame_count = s.frame_count) := by
  unfold handle_keyboard_input
  cases pressed <;> simp only [Bool.false_eq_true, reduceIte] <;>
    (split <;> (try split) <;> simp [mergeOut, EventOut.empty])

/-- Mouse dispatch emits no saves, never exits or panics, and leaves the
renderer-owned fields untouched. -/
theorem handle_mouse_input_out {M : Type} (s : AppState M) (b : MouseButton) :
    ((handle_mouse_input s b).2.sends = [])
    ∧ ((handle_mouse_input s b).2.direct_saves = [])
    ∧ ((handle_mouse_input s b).2.panicked = false)
    ∧ ((handle_mouse_input s b).2.exit = false)
    ∧ ((handle_mouse_input s b).1.frame_sender = s.frame_sender)
    ∧ ((handle_mouse_input s b).1.config = s.config)
    ∧ ((handle_mouse_input s b).1.window = s.window)
    ∧ ((handle_mouse_input s b).1.pixels = s.pixels)
    ∧ ((handle_mouse_input s b).1.frame_count = s.frame_count) := by
  unfold handle_mouse_input
  split <;> simp [EventOut.empty]

/-- The cmd+s block never sends on the worker channel, never exits, and leaves
the renderer-owned fields (other than the surface contents) untouched. -/
theorem cmd_s_save_out {M : Type} (draw : AppState M → M → List Nat)
    (env : Env) (s : AppState M) :
    ((cmd_s_save draw env s).2.sends = [])
    ∧ ((cmd_s_save draw env s).2.exit = false)
    ∧ ((cmd_s_save draw env s).1.frame_sender = s.frame_sender)
    ∧ ((cmd_s_save draw env s).1.config = s.config)
    ∧ ((cmd_s_save draw env s).1.window = s.window)
    ∧ ((cmd_s_save draw env s).1.frame_count = s.frame_count)
    ∧ ((cmd_s_save draw env s).1.key_handlers = s.key_handlers)
    ∧ ((cmd_s_save draw env s).1.key_press_handlers = s.key_press_handlers)
    ∧ ((cmd_s_save draw env s).1.model = s.model) := by
  unfold cmd_s_save
  (repeat' split) <;> simp [EventOut.empty] <;> (repeat' split) <;>
    simp [EventOut.empty]

/-- The frame-save block only ever sends or logs: it cannot exit, panic,
request a redraw, save directly, or invoke handlers. -/
theorem frame_save_out_fields {M : Type} (env : Env) (dr : List Nat)
    (s2 : AppState M) :
    ((frame_save_out env dr s2).exit = false)
    ∧ ((frame_save_out env dr s2).panicked = false)
    ∧ ((frame_save_out env dr s2).redraw = false)
    ∧ ((frame_save_out env dr s2).direct_saves = [])
    ∧ ((frame_save_out env dr s2).held_invoked = [])
    ∧ ((frame_save_out env dr s2).press_invoked = []) := by
  unfold frame_save_out
  (repeat' split) <;> simp [EventOut.empty]

/-- Without a sender handle the frame-save block does nothing at all. -/
theorem frame_save_out_none {M : Type} (env : Env) (dr : List Nat)
    (s2 : AppState M) (h : s2.frame_sender = none) :
    frame_save_out env dr s2 = EventOut.empty := by
  unfold frame_save_out
  rw [h]
  split <;> rfl

/-- With a sender and a healthy environment, the frame-save block sends the
frame exactly when `frame_count < frames_to_save`, under the timestamped
indexed filename. -/
theorem frame_save_out_sends_ok {M : Type} (env : Env) (dr : List Nat)
    (s2 : AppState M) (d : String) (hsend : s2.frame_sender = some ())
    (hdir : env.downloads_dir = some d) (hcd : env.create_dir_ok = true)
    (hsok : env.send_ok = true) :
    (frame_save_out env dr s2).sends
      = (if s2.frame_count < s2.config.frames_to_save then
          [⟨dr, frameFilename d env.timestamp s2.frame_count,
            s2.config.width, s2.config.height⟩] else []) := by
  unfold frame_save_out
  rw [hsend, hdir, hcd, hsok]
  split <;> simp [EventOut.empty]

/-- The redraw cycle never touches the sender handle, the config, or the
window handle. -/
theorem redraw_cycle_static {M : Type} (draw : AppState M → M → List Nat)
    (update : Option (AppState M → M → M)) (env : Env) (s : AppState M) :
    ((redraw_cycle draw update env s).1.frame_sender = s.frame_sender)
    ∧ ((redraw_cycle draw update env s).1.config = s.config)
    ∧ ((redraw_cycle draw update env s).1.window = s.window) := by
  unfold redraw_cycle
  (repeat' split) <;> simp <;> (repeat' split) <;> simp

/-- The redraw cycle invokes no held-key handler. -/
theorem redraw_cycle_no_held {M : Type} (draw : AppState M → M → List Nat)
    (update : Option (AppState M → M → M)) (env : Env) (s : AppState M) :
    (redraw_cycle draw update env s).2.held_invoked = [] := by
  unfold redraw_cycle
  (repeat' split) <;>
    simp [mergeOut, EventOut.empty, frame_save_out_fields] <;>
    (repeat' split) <;> simp [mergeOut, EventOut.empty, frame_save_out_fields]

/-- A redraw cycle without a sender handle sends nothing. -/
theorem redraw_cycle_sends_none {M : Type} (draw : AppState M → M → List Nat)
    (update : Option (AppState M → M → M)) (env : Env) (s : AppState M)
    (h : s.frame_sender = none) :
    (redraw_cycle draw update env s).2.sends = [] := by
  unfold redraw_cycle
  (repeat' split) <;>
    simp_all [mergeOut, EventOut.empty, frame_save_out_none] <;>
    (repeat' split) <;> simp_all [mergeOut, EventOut.empty, frame_save_out_none]

/-- One redraw cycle in a healthy environment: no panic or exit, the frame
counter advances by one, the static fields persist, the surface invariant is
maintained, and exactly the cycles with `frame_count < frames_to_save` emit a
send carrying the pre-increment index. -/
theorem redraw_cycle_spec {M : Type} (draw : AppState M → M → List Nat)
    (update : Option (AppState M → M → M)) (env : Env) (s : AppState M)
    (d : String)
    (hrok : env.render_ok = true)
    (hdir : env.downloads_dir = some d)
    (hcd : env.create_dir_ok = true)
    (hsok : env.send_ok = true)
    (hsend : s.frame_sender = some ())
    (hpx : ∀ f, s.pixels = some f →
      f.length = s.config.width * s.config.height * 4)
    (hdraw : ∀ st : AppState M, (draw st st.model).length
      = st.config.width * st.config.height * 4) :
    ((redraw_cycle draw update env s).2.panicked = false)
    ∧ ((redraw_cycle draw update env s).2.exit = false)
    ∧ ((redraw_cycle draw update env s).1.frame_count = s.frame_count + 1)
    ∧ ((redraw_cycle draw update env s).1.config = s.config)
    ∧ ((redraw_cycle draw update env s).1.frame_sender = s.frame_sender)
    ∧ ((redraw_cycle draw update env s).1.window = s.window)
    ∧ (∀ f, (redraw_cycle draw update env s).1.pixels = some f →
        f.length = s.config.width * s.config.height * 4)
    ∧ ((redraw_cycle draw update env s).2.sends.map (fun q => q.filename)
        = if s.frame_count < s.config.frames_to_save
          then [frameFilename d env.timestamp s.frame_count] else []) := by
  rcases hp : s.pixels with _ | f
  · have h1 := hdraw
      { s with pixels := some (List.replicate (s.config.width * s.config.height * 4) 0) }
    simp only [redraw_cycle, hp, h1, List.length_replicate, ne_eq,
      not_true_eq_false, reduceIte, hrok, Bool.not_true]
    rcases update with _ | f2 <;>
      simp_all [mergeOut, EventOut.empty, frame_save_out_sends_ok,
        frame_save_out_fields] <;>
      (split <;> simp)
  · have hf := hpx f hp
    have h1 := hdraw { s with pixels := some f }
    simp only [redraw_cycle, hp, h1, hf, ne_eq, not_true_eq_false, reduceIte,
      hrok, Bool.not_true]
    rcases update with _ | f2 <;>
      simp_all [mergeOut, EventOut.empty, frame_save_out_sends_ok,
        frame_save_out_fields] <;>
      (split <;> simp)

/-- With a live window, handling `RedrawRequested` is exactly one redraw cycle
on the time-resampled state. -/
theorem window_event_redraw_eq {M : Type} (draw : AppState M → M → List Nat)
    (update : Option (AppState M → M → M)) (env : Env) (s : AppState M)
    (hw : s.window = true) :
    window_event draw update env s Event.redrawRequested
      = redraw_cycle draw update env { s with time := env.now } := by
  unfold window_event
  simp [hw]

/-- No window event ever changes the sender handle, the config, or the window
handle. -/
theorem window_event_static {M : Type} (draw : AppState M → M → List Nat)
    (update : Option (AppState M → M → M)) (env : Env) (s : AppState M)
    (ev : Event) :
    ((window_event draw update env s ev).1.frame_sender = s.frame_sender)
    ∧ ((window_event draw update env s ev).1.config = s.config)
    ∧ ((window_event draw update env s ev).1.window = s.window) := by
  unfold window_event
  split
  · exact ⟨rfl, rfl, rfl⟩
  · cases ev <;>
      simp [handle_keyboard_input_out, handle_mouse_input_out, cmd_s_save_out,
        redraw_cycle_static] <;>
      (repeat' split) <;>
      simp [handle_keyboard_input_out, handle_mouse_input_out, cmd_s_save_out,
        redraw_cycle_static]

/-- Without a sender handle no window event sends a frame to the worker. -/
theorem window_event_sends_none {M : Type} (draw : AppState M → M → List Nat)
    (update : Option (AppState M → M → M)) (env : Env) (s : AppState M)
    (ev : Event) (h : s.frame_sender = none) :
    (window_event draw update env s ev).2.sends = [] := by
  unfold window_event
  split
  · rfl
  · cases ev <;>
      (first
        | (simp [EventOut.empty]; done)
        | (simp_all [handle_keyboard_input_out, handle_mouse_input_out,
             cmd_s_save_out, mergeOut, redraw_cycle_sends_none,
             EventOut.empty] <;>
           (repeat' split) <;>
           simp_all [handle_keyboard_input_out, handle_mouse_input_out,
             cmd_s_save_out, mergeOut, redraw_cycle_sends_none,
             EventOut.empty]))

/-- On a Pressed key event with a held handler registered for that key, the
held handler is invoked exactly once and a redraw is requested. -/
theorem handle_keyboard_held_once {M : Type} (s : AppState M) (key : Key)
    (h : M → M) (hheld : mapLookup s.key_handlers key = some h) :
    ((handle_keyboard_input s true key).2.held_invoked = [key])
    ∧ ((handle_keyboard_input s true key).2.redraw = true) := by
  unfold handle_keyboard_input
  rcases hpl : mapLookup s.key_press_handlers key with _ | g <;>
    simp [hpl, hheld, mergeOut, EventOut.empty]

/-- Driving the runtime with `T` delivered `RedrawRequested` events from an
arbitrary frame index runs `T` cycles and sends exactly the frames whose
pre-increment index is within the save quota. -/
theorem run_script_redraws {M : Type} (draw : AppState M → M → List Nat)
    (update : Option (AppState M → M → M)) (env : Env) (d : String)
    (hdir : env.downloads_dir = some d) (hcd : env.create_dir_ok = true)
    (hsok : env.send_ok = true) (hrok : env.render_ok = true)
    (hdraw : ∀ st : AppState M, (draw st st.model).length
      = st.config.width * st.config.height * 4) :
    ∀ (T : Nat) (s : AppState M), s.window = true → s.frame_sender = some () →
      (∀ f, s.pixels = some f →
        f.length = s.config.width * s.config.height * 4) →
      ((run_script draw update env s
          (List.replicate T Event.redrawRequested)).2.sends.map
          (fun q => q.filename)
        = ((List.range' s.frame_count T).filter
            (fun i => decide (i < s.config.frames_to_save))).map
            (fun i => frameFilename d env.timestamp i))
      ∧ ((run_script draw update env s
          (List.replicate T Event.redrawRequested)).2.cycles = T)
      ∧ ((run_script draw update env s
          (List.replicate T Event.redrawRequested)).1.frame_count
          = s.frame_count + T)
      ∧ ((run_script draw update env s
          (List.replicate T Event.redrawRequested)).2.panicked = false)
      ∧ ((run_script draw update env s
          (List.replicate T Event.redrawRequested)).2.exited = false) := by
  intro T
  induction T with
  | zero =>
      intro s hw hsend hpx
      simp [run_script, RunOut.empty, List.range']
  | succ T ih =>
      intro s hw hsend hpx
      obtain ⟨hq1, hq2, hq3, hq4, hq5, hq6, hq7, hq8⟩ :=
        redraw_cycle_spec draw update env { s with time := env.now } d hrok
          hdir hcd hsok hsend hpx hdraw
      have hw2 : (redraw_cycle draw update env
          { s with time := env.now }).1.window = true := by
        rw [hq6]; exact hw
      have hsend2 : (redraw_cycle draw update env
          { s with time := env.now }).1.frame_sender = some () := by
        rw [hq5]; exact hsend
      have hpx2 : ∀ f, (redraw_cycle draw update env
            { s with time := env.now }).1.pixels = some f →
          f.length = (redraw_cycle draw update env
            { s with time := env.now }).1.config.width
            * (redraw_cycle draw update env
              { s with time := env.now }).1.config.height * 4 := by
        rw [hq4]; exact hq7
      obtain ⟨ih1, ih2, ih3, ih4, ih5⟩ :=
        ih (redraw_cycle draw update env { s with time := env.now }).1 hw2
          hsend2 hpx2
      rw [List.replicate_succ]
      simp only [run_script, window_event_redraw_eq draw update env s hw,
        hq1, hq2, Bool.or_self, Bool.false_eq_true, reduceIte, cycleWeight]
      refine ⟨?_, ?_, ?_, ?_, ?_⟩
      · simp only [consRun, List.map_append, ih1, hq8, hq3, hq4]
        rw [List.range'_succ, List.filter_cons]
        by_cases hfc : s.frame_count < s.config.frames_to_save <;>
          simp [hfc]
      · simp [consRun, ih2]
        omega
      · simp [ih3, hq3]
        omega
      · simp [consRun, ih4, hq1]
      · simp [consRun, ih5, hq2]

/-- Filtering the first T naturals by a quota keeps exactly the first min
q T of them. -/
theorem range_filter_lt (q T : Nat) :
    (List.range T).filter (fun i => decide (i < q)) = List.range (min q T) := by
  induction T with
  | zero => simp
  | succ T ih =>
      rw [List.range_succ, List.filter_append, ih]
      by_cases h : T < q
      · have h1 : min q T = T := by omega
        have h2 : min q (T + 1) = T + 1 := by omega
        simp [h, h1, h2, List.range_succ]
      · have h1 : min q T = q := by omega
        have h2 : min q (T + 1) = q := by omega
        simp [h, h1, h2]

/-!  Claim theorems. -/

/-- C1: the claim says `frames = Some(k)`, `no_loop = false` gives exactly `k`
redraw cycles with no redraw requested after the k-th; the code decides
`request_redraw` on `frame_count` before incrementing it, so the k-th completed
cycle still requests one more and `k + 1` cycles are handled.  Evaluated at
`k = 1`: 2 cycles are handled and the final `frame_count` is 2. -/
theorem c1_frame_limit_off_by_one :
    ((run_loop drawBlack none envOk 10
        (resumed (App.sketch ((Config.with_dims 1 1).set_frames 1)))).2.cycles = 2)
    ∧ ((run_loop drawBlack none envOk 10
        (resumed (App.sketch ((Config.with_dims 1 1).set_frames 1)))).1.frame_count = 2) := by
  decide

/-- C4: in AppMode with an increment update starting at 0 and
`frames = Some(3)`, draw is evaluated on the pre-update model in each cycle,
but 4 cycles run (the C1 off-by-one), so the values draw observes are
0, 1, 2, 3 — not 0, 1, 2 as the claim says.  The per-frame saves record each
cycle's draw output, which exhibits exactly the observed model values. -/
theorem c4_update_after_draw_eval :
    ((run_loop drawModel (some updInc) envOk 10
        (resumed (App.app 0
          (((Config.with_dims 1 1).set_frames 3).set_frames_to_save 10)))).2.sends.map
        (fun r => r.pixels)
      = [[0, 0, 0, 0], [1, 1, 1, 1], [2, 2, 2, 2], [3, 3, 3, 3]])
    ∧ ((run_loop drawModel (some updInc) envOk 10
        (resumed (App.app 0
          (((Config.with_dims 1 1).set_frames 3).set_frames_to_save 10)))).2.cycles = 4)
    ∧ ((run_loop drawModel (some updInc) envOk 10
        (resumed (App.app 0
          (((Config.with_dims 1 1).set_frames 3).set_frames_to_save 10)))).1.model = 4) := by
  decide

/-- C8: a draw function returning a buffer of the wrong length makes the
redraw cycle panic (the `copy_from_slice` length assertion unwinds the
process) rather than fail with a `ContractViolation` error; the presentation
surface is left holding its previous contents (no partial write, no
out-of-bounds access), no save is emitted, and no further redraw is
requested. -/
theorem c8_wrong_length_panics :
    ((window_event drawEmpty none envOk
        (resumed (App.sketch (Config.with_dims 1 1)))
        Event.redrawRequested).2.panicked = true)
    ∧ ((window_event drawEmpty none envOk
        (resumed (App.sketch (Config.with_dims 1 1)))
        Event.redrawRequested).1.pixels = some (List.replicate 4 0))
    ∧ ((window_event drawEmpty none envOk
        (resumed (App.sketch (Config.with_dims 1 1)))
        Event.redrawRequested).2.sends = [])
    ∧ ((window_event drawEmpty none envOk
        (resumed (App.sketch (Config.with_dims 1 1)))
        Event.redrawRequested).2.redraw = false) := by
  decide

/-- C2 counterexample: delivering two key-Pressed events for a held "a" (an
initial press and a hardware repeat) with zero redraw cycles invokes the
`on_key_held` handler twice — the handler fires per hardware key event at
input-dispatch time, not once per redraw cycle during the update phase. -/
theorem c2_held_counterexample :
    ((run_script drawBlack none envOk c2App
        [Event.keyboardInput true keyA, Event.keyboardInput true keyA]).2.held_invoked.length
      = 2)
    ∧ ((run_script drawBlack none envOk c2App
        [Event.keyboardInput true keyA, Event.keyboardInput true keyA]).2.cycles = 0) := by
  decide

/-- C3 counterexample: with save quota `q = 2` and a run completing
`total_frames = 1` redraw cycle, exactly `min(q, total_frames) = 1`
SaveRequest is sent, but its frame index set is `{0}`, not `[0, q) = {0, 1}`
as the claim states. -/
theorem c3_indices_counterexample :
    ((run_loop drawBlack none envOk 5 c3App).2.cycles = 1)
    ∧ ((run_loop drawBlack none envOk 5 c3App).2.sends.map (fun r => r.filename)
        = [frameFilename ("/downloads") 99 0])
    ∧ ([frameFilename ("/downloads") 99 0]
        ≠ [frameFilename ("/downloads") 99 0, frameFilename ("/downloads") 99 1]) := by
  decide

/-- C6 counterexample: a fatal presentation error (`pixels.render()` fails)
exits the event loop, and `App::run` still prints the end-of-run summary —
the summary print is unconditional after `run_app` returns, so it is not
"never printed on a fatal error path" as the claim states. -/
theorem c6_summary_counterexample :
    ((app_run drawBlack none envRenderFail
        (resumed (App.sketch (Config.with_dims 1 1)))
        [Event.redrawRequested]).summary_printed = true)
    ∧ ((app_run drawBlack none envRenderFail
        (resumed (App.sketch (Config.with_dims 1 1)))
        [Event.redrawRequested]).exited = true) := by
  decide

/-- C2 (amended): while a key is held, its `on_key_held` handler fires exactly
once per delivered key-Pressed event (the initial press and every hardware
repeat), at input-dispatch time, and each firing also requests a redraw; the
redraw cycle itself never invokes a held-key handler. -/
theorem c2_held_fires_per_key_event {M : Type}
    (draw : AppState M → M → List Nat)
    (update : Option (AppState M → M → M)) (env : Env) (s : AppState M)
    (key : Key) (h : M → M)
    (hw : s.window = true) (hsuper : s.modifiers_super = false)
    (hheld : mapLookup s.key_handlers key = some h) :
    ((window_event draw update env s
        (Event.keyboardInput true key)).2.held_invoked = [key])
    ∧ ((window_event draw update env s
        (Event.keyboardInput true key)).2.redraw = true)
    ∧ (∀ s2 : AppState M,
        (window_event draw update env s2
          Event.redrawRequested).2.held_invoked = []) := by
  refine ⟨?_, ?_, ?_⟩
  · unfold window_event
    simp [hw, hsuper, mergeOut, EventOut.empty, handle_keyboard_held_once,
      hheld]
  · unfold window_event
    simp [hw, hsuper, mergeOut, EventOut.empty, handle_keyboard_held_once,
      hheld]
  · intro s2
    unfold window_event
    split
    · rfl
    · exact redraw_cycle_no_held draw update env { s2 with time := env.now }

/-- C2 witness: the amended behavior at a concrete held-key sketch. -/
theorem c2_held_fires_per_key_event_witness :
    ((window_event drawBlack none envOk c2App
        (Event.keyboardInput true keyA)).2.held_invoked = [keyA])
    ∧ ((window_event drawBlack none envOk c2App
        (Event.keyboardInput true keyA)).2.redraw = true)
    ∧ ((window_event drawBlack none envOk c3App
        Event.redrawRequested).2.held_invoked = []) := by
  have h := c2_held_fires_per_key_event drawBlack none envOk c2App keyA
    (fun m => m) rfl rfl rfl
  exact ⟨h.1, h.2.1, h.2.2 c3App⟩

/-- C3 (amended): a run that completes `total_frames` redraw cycles with save
quota `q` sends exactly `min(q, total_frames)` SaveRequests, one per frame
index in `[0, min(q, total_frames))` — the index set is truncated by the run
length, not always `[0, q)`. -/
theorem c3_save_quota {M : Type} (draw : AppState M → M → List Nat)
    (update : Option (AppState M → M → M)) (env : Env) (d : String)
    (s : AppState M) (T : Nat)
    (hdir : env.downloads_dir = some d) (hcd : env.create_dir_ok = true)
    (hsok : env.send_ok = true) (hrok : env.render_ok = true)
    (hdraw : ∀ st : AppState M, (draw st st.model).length
      = st.config.width * st.config.height * 4)
    (hw : s.window = true) (hsend : s.frame_sender = some ())
    (hfc : s.frame_count = 0)
    (hpx : ∀ f, s.pixels = some f →
      f.length = s.config.width * s.config.height * 4) :
    ((run_script draw update env s
        (List.replicate T Event.redrawRequested)).2.cycles = T)
    ∧ ((run_script draw update env s
        (List.replicate T Event.redrawRequested)).2.sends.map
        (fun q => q.filename)
      = (List.range (min s.config.frames_to_save T)).map
          (fun i => frameFilename d env.timestamp i)) := by
  obtain ⟨h1, h2, h3, h4, h5⟩ := run_script_redraws draw update env d hdir hcd
    hsok hrok hdraw T s hw hsend hpx
  refine ⟨h2, ?_⟩
  rw [h1, hfc, ← List.range_eq_range', range_filter_lt]

/-- C3 witness: quota 2 over a 5-cycle run sends frames 0 and 1. -/
theorem c3_save_quota_witness :
    ((run_script drawBlack none envOk c3Quota
        (List.replicate 5 Event.redrawRequested)).2.cycles = 5)
    ∧ ((run_script drawBlack none envOk c3Quota
        (List.replicate 5 Event.redrawRequested)).2.sends.map
        (fun q => q.filename)
      = (List.range (min c3Quota.config.frames_to_save 5)).map
          (fun i => frameFilename ("/downloads") envOk.timestamp i)) :=
  c3_save_quota drawBlack none envOk ("/downloads") c3Quota 5 rfl rfl rfl rfl
    (fun st => by simp [drawBlack]) rfl rfl rfl
    (fun f h => Option.noConfusion h)

/-- C5: the persistence worker processes every queued request in order; a
request whose save fails contributes one log line (`Failed to save frame:`)
and the worker still processes every request before and after it — no failure
terminates the worker or reaches the render loop. -/
theorem c5_worker_logs_and_continues (save : SaveRequest → Except String Unit)
    (pre rest : List SaveRequest) (r : SaveRequest) (e : String)
    (hfail : save r = Except.error e) :
    (frame_worker save (pre ++ r :: rest)
      = frame_worker save pre
        ++ some ("Failed to save frame: " ++ e) :: frame_worker save rest)
    ∧ (∀ reqs : List SaveRequest,
        (frame_worker save reqs).length = reqs.length) := by
  constructor
  · induction pre with
    | nil => simp [frame_worker, save_frame_result, hfail]
    | cons p ps ih => simp [frame_worker, ih]
  · intro reqs
    induction reqs with
    | nil => rfl
    | cons p ps ih => simp [frame_worker, ih]

/-- C5 witness: a concrete three-request queue whose middle save fails. -/
theorem c5_worker_logs_and_continues_witness :
    (saveFlaky reqBad = Except.error ("disk full"))
    ∧ (frame_worker saveFlaky ([reqGood] ++ reqBad :: [reqLater])
        = frame_worker saveFlaky [reqGood]
          ++ some ("Failed to save frame: " ++ "disk full")
            :: frame_worker saveFlaky [reqLater])
    ∧ ((frame_worker saveFlaky [reqGood, reqBad, reqLater]).length
        = [reqGood, reqBad, reqLater].length) :=
  ⟨rfl,
   (c5_worker_logs_and_continues saveFlaky [reqGood] [reqLater] reqBad
     ("disk full") rfl).1,
   (c5_worker_logs_and_continues saveFlaky [reqGood] [reqLater] reqBad
     ("disk full") rfl).2 [reqGood, reqBad, reqLater]⟩

/-- C6 (amended): the end-of-run summary is printed on every shutdown in which
`run_app` returns — graceful close requests and fatal presentation errors
alike; it is skipped only when a panic unwinds the process. -/
theorem c6_summary_unless_panic {M : Type} (draw : AppState M → M → List Nat)
    (update : Option (AppState M → M → M)) (env : Env) (s : AppState M)
    (script : List Event)
    (h : (run_script draw update env s script).2.panicked = false) :
    (app_run draw update env s script).summary_printed = true := by
  unfold app_run
  simp [h]

/-- C6 witness: the summary is printed on the fatal presentation-error path. -/
theorem c6_summary_unless_panic_witness :
    (app_run drawBlack none envRenderFail
      (resumed (App.sketch (Config.with_dims 1 1)))
      [Event.redrawRequested]).summary_printed = true :=
  c6_summary_unless_panic drawBlack none envRenderFail
    (resumed (App.sketch (Config.with_dims 1 1))) [Event.redrawRequested]
    (by decide)

/-- C7: registering a press handler for the same key twice retains only the
second handler (HashMap insert, last write wins), and a single key-down
transition (previous state up, new state down) invokes the press handler
exactly once, mutating the model by exactly one application of the retained
handler. -/
theorem c7_press_last_write_wins {M : Type} (draw : AppState M → M → List Nat)
    (update : Option (AppState M → M → M)) (env : Env) (s : AppState M)
    (k : Key) (h1 h2 : M → M)
    (hw : s.window = true) (hsuper : s.modifiers_super = false)
    (_hup : ¬ k ∈ s.keys_down)
    (hheld : mapLookup s.key_handlers k = none) :
    (mapLookup
        ((s.on_key_press k h1).on_key_press k h2).key_press_handlers k
      = some h2)
    ∧ ((window_event draw update env
        ((s.on_key_press k h1).on_key_press k h2)
        (Event.keyboardInput true k)).2.press_invoked = [k])
    ∧ ((window_event draw update env
        ((s.on_key_press k h1).on_key_press k h2)
        (Event.keyboardInput true k)).1.model = h2 s.model) := by
  refine ⟨by simp [AppState.on_key_press, mapLookup_insert_self], ?_, ?_⟩ <;>
  · unfold window_event handle_keyboard_input
    simp [hw, hsuper, AppState.on_key_press, mapLookup_insert_self, hheld,
      mergeOut, EventOut.empty]

/-- C7 witness: double registration on a concrete stateful app; one Pressed
event fires the second handler once. -/
theorem c7_press_last_write_wins_witness :
    (mapLookup
        ((c7App.on_key_press keyA (fun m => m + 1)).on_key_press keyA
          (fun m => m + 2)).key_press_handlers keyA
      = some (fun m => m + 2))
    ∧ ((window_event drawModel (some updInc) envOk
        ((c7App.on_key_press keyA (fun m => m + 1)).on_key_press keyA
          (fun m => m + 2))
        (Event.keyboardInput true keyA)).2.press_invoked = [keyA])
    ∧ ((window_event drawModel (some updInc) envOk
        ((c7App.on_key_press keyA (fun m => m + 1)).on_key_press keyA
          (fun m => m + 2))
        (Event.keyboardInput true keyA)).1.model
      = (fun m => m + 2) c7App.model) :=
  c7_press_last_write_wins drawModel (some updInc) envOk c7App keyA
    (fun m => m + 1) (fun m => m + 2) rfl rfl (List.not_mem_nil keyA) rfl

/-- C9: the sender handle exists iff the save quota was positive at
construction (`App::sketch` / `App::app`); no later operation (builder setters
or event handling) ever creates or destroys it, so raising the quota through
`set_frames_to_save` on an app constructed with quota 0 leaves the handle
`None` and no SaveRequest is ever emitted for that app. -/
theorem c9_frame_sender_invariant :
    (∀ cfg : Config, (App.sketch cfg).frame_sender
      = if cfg.frames_to_save > 0 then some () else none)
    ∧ (∀ (M : Type) (m : M) (cfg : Config), (App.app m cfg).frame_sender
      = if cfg.frames_to_save > 0 then some () else none)
    ∧ (∀ (M : Type) (s : AppState M) (n : Nat),
        (s.set_frames_to_save n).frame_sender = s.frame_sender)
    ∧ (∀ (M : Type) (draw : AppState M → M → List Nat)
        (update : Option (AppState M → M → M)) (env : Env) (s : AppState M)
        (ev : Event),
        (window_event draw update env s ev).1.frame_sender = s.frame_sender)
    ∧ (∀ (M : Type) (draw : AppState M → M → List Nat)
        (update : Option (AppState M → M → M)) (env : Env) (s : AppState M)
        (script : List Event), s.frame_sender = none →
        (run_script draw update env s script).2.sends = [])
    ∧ (∀ (cfg : Config) (n : Nat) (draw : AppState Unit → Unit → List Nat)
        (env : Env) (script : List Event), cfg.frames_to_save = 0 →
        (run_script draw none env
          (resumed ((App.sketch cfg).set_frames_to_save n))
          script).2.sends = []) := by
  have hstep : ∀ (M : Type) (draw : AppState M → M → List Nat)
      (update : Option (AppState M → M → M)) (env : Env) (s : AppState M)
      (script : List Event), s.frame_sender = none →
      (run_script draw update env s script).2.sends = [] := by
    intro M draw update env s script h
    induction script generalizing s with
    | nil => rfl
    | cons ev rest ih =>
        simp only [run_script]
        have hs := window_event_sends_none draw update env s ev h
        have hp : (window_event draw update env s ev).1.frame_sender = none := by
          rw [(window_event_static draw update env s ev).1]; exact h
        split
        · simp [stopRun, hs]
        · simp [consRun, hs, ih _ hp]
  refine ⟨fun cfg => rfl, fun M m cfg => rfl, fun M s n => rfl, ?_, hstep, ?_⟩
  · intro M draw update env s ev
    exact (window_event_static draw update env s ev).1
  · intro cfg n draw env script hcfg
    apply hstep
    simp [resumed, AppState.set_frames_to_save, App.sketch,
      setup_frame_sender, hcfg]

/-- C9 witness: an app constructed with quota 0 then raised to 3 emits no
SaveRequest over a redraw. -/
theorem c9_frame_sender_invariant_witness :
    (run_script drawBlack none envOk
      (resumed ((App.sketch (Config.with_dims 1 1)).set_frames_to_save 3))
      [Event.redrawRequested]).2.sends = [] :=
  c9_frame_sender_invariant.2.2.2.2.2 (Config.with_dims 1 1) 3 drawBlack
    envOk [Event.redrawRequested] rfl

/-- With a live surface, a matching buffer length, and a healthy filesystem,
the cmd+s block copies the freshly drawn frame into the surface and saves it
directly under the timestamped `artmate` filename. -/
theorem cmd_s_save_spec {M : Type} (draw : AppState M → M → List Nat)
    (env : Env) (s : AppState M) (frame : List Nat) (d : String)
    (hpix : s.pixels = some frame)
    (hlen : (draw s s.model).length = frame.length)
    (hdir : env.downloads_dir = some d) (hcd : env.create_dir_ok = true)
    (hds : env.direct_save_ok = true) :
    cmd_s_save draw env s
      = ({ s with pixels := some (draw s s.model) },
         { EventOut.empty with direct_saves :=
            [⟨draw s s.model, directFilename d env.timestamp,
              s.config.width, s.config.height⟩] }) := by
  unfold cmd_s_save
  rw [hpix]
  simp [hlen, hdir, hcd, hds]

/-- C10: pressing "s" with a Super modifier held, once the pixel surface
exists, synchronously draws and saves the frame as
`Downloads/artmate/artmate_<timestamp>.png` via `save_frame` directly — for
any save quota (the state `s` is arbitrary) and in both modes (`update` is
arbitrary) — and emits nothing on the persistence-worker channel. -/
theorem c10_cmd_s_direct_save {M : Type} (draw : AppState M → M → List Nat)
    (update : Option (AppState M → M → M)) (env : Env) (s : AppState M)
    (frame : List Nat) (d : String)
    (hw : s.window = true) (hsuper : s.modifiers_super = true)
    (hpix : s.pixels = some frame)
    (hlen : (draw { s with time := env.now } s.model).length = frame.length)
    (hdir : env.downloads_dir = some d) (hcd : env.create_dir_ok = true)
    (hds : env.direct_save_ok = true) :
    ((window_event draw update env s
        (Event.keyboardInput true (Key.character ("s")))).2.direct_saves
      = [⟨draw { s with time := env.now } s.model,
          directFilename d env.timestamp, s.config.width, s.config.height⟩])
    ∧ ((window_event draw update env s
        (Event.keyboardInput true (Key.character ("s")))).2.sends = [])
    ∧ ((window_event draw update env s
        (Event.keyboardInput true (Key.character ("s")))).2.panicked
      = false) := by
  refine ⟨?_, ?_, ?_⟩ <;>
  · unfold window_event cmd_s_save
    simp_all [handle_keyboard_input_out, mergeOut, EventOut.empty]

/-- C10 witness: a concrete cmd+s press on a sketch with a live 1×1 surface
saves `/downloads/artmate/artmate_99.png` directly and sends nothing to the
worker. -/
theorem c10_cmd_s_direct_save_witness :
    ((window_event drawBlack none envOk c10App
        (Event.keyboardInput true (Key.character ("s")))).2.direct_saves
      = [⟨drawBlack { c10App with time := envOk.now } c10App.model,
          directFilename ("/downloads") envOk.timestamp, c10App.config.width,
          c10App.config.height⟩])
    ∧ ((window_event drawBlack none envOk c10App
        (Event.keyboardInput true (Key.character ("s")))).2.sends = [])
    ∧ ((window_event drawBlack none envOk c10App
        (Event.keyboardInput true (Key.character ("s")))).2.panicked
      = false) :=
  c10_cmd_s_direct_save drawBlack none envOk c10App [0, 0, 0, 0]
    ("/downloads") rfl rfl rfl (by decide) rfl rfl rfl
